import Mathlib

/-!
Shallow embedding of the client-side session and voice-channel orchestration
implemented in react app/src/hooks/useBackendVoiceAssistant.js.

React useState setters become field updates on an explicit state record; the
JavaScript event loop (WebSocket onmessage events and setTimeout callbacks)
becomes an explicit event trace with arrival timestamps in milliseconds.
Pending setTimeout callbacks registered by the ai_response handler are kept as
an explicit FIFO list of fire deadlines, since the source never stores or
clears the timer id.
-/

namespace VoiceHook

/-- Role of a transcript turn: the type field of the objects pushed into the
messages array (user or assistant). -/
inductive Role
  | user
  | assistant
deriving DecidableEq

/-- One transcript entry, as appended to the messages React state. -/
structure Turn where
  role : Role
  content : String
deriving DecidableEq

/-- The connectionStatus React state values used by the hook. -/
inductive Status
  | disconnected
  | connecting
  | connected
  | error
deriving DecidableEq

/-- Decoded inbound control message: the type discriminator of the JSON frame
plus its payload field, covering every case of the switch statements in
handleMessageFromBackend and handleDataReceived.  A frame whose type matches
no case is kept as unknown together with its type string. -/
inductive BackendMsg
  | userTranscript (transcript : String)
  | aiResponse (text : String)
  | listeningStarted
  | listeningStopped
  | processingStarted
  | processingStopped
  | sessionReady
  | sessionStopped
  | connectionEstablished
  | errorMsg (message : Option String)
  | unknown (ty : String)
deriving DecidableEq

/-- A raw frame delivered to an onmessage handler: either JSON.parse throws
(malformed) or it yields a decoded message. -/
inductive WsFrame
  | malformed
  | decoded (m : BackendMsg)
deriving DecidableEq

/-- The React state of the hook that the inbound handlers touch, plus the
list of deadlines (in ms) of pending setTimeout callbacks registered by the
ai_response case of handleMessageFromBackend.  The source never keeps the
timer id and never calls clearTimeout, so every registered callback stays
pending until it fires. -/
structure MState where
  isConnected : Bool
  isListening : Bool
  isSpeaking : Bool
  messages : List Turn
  connectionStatus : Status
  error : Option String
  timers : List Nat
deriving DecidableEq

/-- The initial useState values of the hook. -/
def initMState : MState :=
  { isConnected := false
    isListening := false
    isSpeaking := false
    messages := []
    connectionStatus := Status.disconnected
    error := none
    timers := [] }

/-- JavaScript m || dflt for an optional string field, where undefined, null
and the empty string are all falsy. -/
def jsOr (m : Option String) (dflt : String) : String :=
  match m with
  | none => dflt
  | some str => if str = "" then dflt else str

/-- JavaScript str || dflt for a plain string (the empty string is falsy). -/
def jsOrStr (str dflt : String) : String :=
  if str = "" then dflt else str

/-- The switch statement of handleMessageFromBackend (WebSocket control
messages).  now is the arrival time of the message in ms: the ai_response
case calls setTimeout with delay 2000, which registers a pending callback
with deadline now + 2000. -/
def handleMessageFromBackend (now : Nat) (data : BackendMsg) (s : MState) : MState :=
  match data with
  | BackendMsg.userTranscript transcript =>
      { s with messages := s.messages ++ [{ role := Role.user, content := transcript }] }
  | BackendMsg.aiResponse text =>
      { s with messages := s.messages ++ [{ role := Role.assistant, content := text }]
               isSpeaking := true
               timers := s.timers ++ [now + 2000] }
  | BackendMsg.listeningStarted =>
      { s with isListening := true, isSpeaking := false }
  | BackendMsg.listeningStopped =>
      { s with isListening := false }
  | BackendMsg.processingStarted =>
      { s with isListening := false, isSpeaking := true }
  | BackendMsg.processingStopped =>
      { s with isSpeaking := false }
  | BackendMsg.sessionReady => s
  | BackendMsg.sessionStopped => s
  | BackendMsg.connectionEstablished => s
  | BackendMsg.errorMsg message =>
      { s with error := some (jsOr message "Unknown error from backend") }
  | BackendMsg.unknown _ => s

/-- The wsRef.current.onmessage handler: JSON.parse failure is caught and
sets the error state; a decoded frame is passed to handleMessageFromBackend. -/
def wsOnMessage (now : Nat) (f : WsFrame) (s : MState) : MState :=
  match f with
  | WsFrame.malformed =>
      { s with error := some "Error processing response from voice service" }
  | WsFrame.decoded data => handleMessageFromBackend now data s

/-- The handleDataReceived handler for LiveKit room data packets: same
discriminator switch, but its ai_response case only appends the turn (no
isSpeaking update, no timer), it has no error case, and a JSON.parse failure
is caught and only logged. -/
def handleDataReceived (f : WsFrame) (s : MState) : MState :=
  match f with
  | WsFrame.malformed => s
  | WsFrame.decoded data =>
    match data with
    | BackendMsg.userTranscript transcript =>
        { s with messages := s.messages ++ [{ role := Role.user, content := transcript }] }
    | BackendMsg.aiResponse text =>
        { s with messages := s.messages ++ [{ role := Role.assistant, content := text }] }
    | BackendMsg.listeningStarted =>
        { s with isListening := true, isSpeaking := false }
    | BackendMsg.listeningStopped =>
        { s with isListening := false }
    | BackendMsg.processingStarted =>
        { s with isListening := false, isSpeaking := true }
    | BackendMsg.processingStopped =>
        { s with isSpeaking := false }
    | _ => s

/-- Firing of the earliest pending setTimeout callback registered by the
ai_response case: it runs setIsSpeaking(false) unconditionally. -/
def fireTimer (s : MState) : MState :=
  match s.timers with
  | [] => s
  | _ :: rest => { s with isSpeaking := false, timers := rest }

/-- One step of the JavaScript event loop relevant to the conversation state
machine: either a WebSocket control frame arrives at time t, or a pending
auto-clear timer fires at time t. -/
inductive Event
  | recv (t : Nat) (f : WsFrame)
  | fire (t : Nat)
deriving DecidableEq

def stepEv (s : MState) : Event → MState
  | Event.recv t f => wsOnMessage t f s
  | Event.fire _ => fireTimer s

def runFrom : MState → List Event → MState
  | s, [] => s
  | s, e :: es => runFrom (stepEv s e) es

/-- Validity of an event trace starting at time now in state s: timestamps
are nondecreasing, and a timer can fire at time t only if a callback is
pending and its deadline has been reached (the JavaScript event loop never
runs a setTimeout callback before its delay has elapsed, and pending
callbacks with nondecreasing deadlines fire in FIFO order). -/
def validFrom : Nat → MState → List Event → Bool
  | _, _, [] => true
  | now, s, Event.recv t f :: es =>
      decide (now ≤ t) && validFrom t (wsOnMessage t f s) es
  | now, s, Event.fire t :: es =>
      decide (now ≤ t) &&
      (match s.timers with
       | [] => false
       | d :: _ => decide (d ≤ t)) &&
      validFrom t (fireTimer s) es

/-- The time of the last event of a trace (now if the trace is empty). -/
def endTime : Nat → List Event → Nat
  | now, [] => now
  | _, Event.recv t _ :: es => endTime t es
  | _, Event.fire t :: es => endTime t es

/-- The transcript turn appended for a message, when it appends one. -/
def turnOf : BackendMsg → Option Turn
  | BackendMsg.userTranscript transcript => some { role := Role.user, content := transcript }
  | BackendMsg.aiResponse text => some { role := Role.assistant, content := text }
  | _ => none

/-- Invariant tying the two activity flags to the pending auto-clear
callbacks: whenever both flags are true a callback is pending, and every
pending deadline lies within 2000 ms of the current time. -/
def GoodInv (now : Nat) (s : MState) : Prop :=
  (s.isListening = true → s.isSpeaking = true → s.timers ≠ []) ∧
  ∀ d ∈ s.timers, d ≤ now + 2000

lemma goodInv_init : GoodInv 0 initMState := by
  constructor
  · intro h _
    simp [initMState] at h
  · intro d hd
    simp [initMState] at hd

lemma goodInv_recv (now t : Nat) (s : MState) (f : WsFrame)
    (h : GoodInv now s) (ht : now ≤ t) : GoodInv t (wsOnMessage t f s) := by
  obtain ⟨h1, h2⟩ := h
  have hd : ∀ d ∈ s.timers, d ≤ t + 2000 := fun d hdm => le_trans (h2 d hdm) (by omega)
  cases f with
  | malformed => exact ⟨h1, hd⟩
  | decoded data =>
    cases data with
    | userTranscript transcript => exact ⟨h1, hd⟩
    | aiResponse text =>
      refine ⟨fun _ _ => ?_, fun d hdm => ?_⟩
      · simp [wsOnMessage, handleMessageFromBackend]
      · simp only [wsOnMessage, handleMessageFromBackend, List.mem_append,
          List.mem_singleton] at hdm
        rcases hdm with hdm | hdm
        · exact hd d hdm
        · omega
    | listeningStarted =>
      refine ⟨fun _ hsp => ?_, hd⟩
      simp [wsOnMessage, handleMessageFromBackend] at hsp
    | listeningStopped =>
      refine ⟨fun hli _ => ?_, hd⟩
      simp [wsOnMessage, handleMessageFromBackend] at hli
    | processingStarted =>
      refine ⟨fun hli _ => ?_, hd⟩
      simp [wsOnMessage, handleMessageFromBackend] at hli
    | processingStopped =>
      refine ⟨fun _ hsp => ?_, hd⟩
      simp [wsOnMessage, handleMessageFromBackend] at hsp
    | sessionReady => exact ⟨h1, hd⟩
    | sessionStopped => exact ⟨h1, hd⟩
    | connectionEstablished => exact ⟨h1, hd⟩
    | errorMsg message => exact ⟨h1, hd⟩
    | unknown ty => exact ⟨h1, hd⟩

lemma goodInv_fire (now t : Nat) (s : MState)
    (h : GoodInv now s) (ht : now ≤ t) : GoodInv t (fireTimer s) := by
  obtain ⟨h1, h2⟩ := h
  cases htm : s.timers with
  | nil =>
    refine ⟨?_, ?_⟩
    · simpa [fireTimer, htm] using fun hli hsp => h1 hli hsp
    · intro d hdm
      simp [fireTimer, htm] at hdm
  | cons d0 rest =>
    refine ⟨fun _ hsp => ?_, fun d hdm => ?_⟩
    · simp [fireTimer, htm] at hsp
    · simp only [fireTimer, htm] at hdm
      exact le_trans (h2 d (by simp [htm, hdm])) (by omega)

lemma goodInv_run : ∀ (tr : List Event) (now : Nat) (s : MState),
    validFrom now s tr = true → GoodInv now s →
    GoodInv (endTime now tr) (runFrom s tr)
  | [], now, s, _, hg => hg
  | Event.recv t f :: es, now, s, hv, hg => by
    simp only [validFrom, Bool.and_eq_true, decide_eq_true_eq] at hv
    exact goodInv_run es t (wsOnMessage t f s) hv.2 (goodInv_recv now t s f hg hv.1)
  | Event.fire t :: es, now, s, hv, hg => by
    simp only [validFrom, Bool.and_eq_true, decide_eq_true_eq] at hv
    exact goodInv_run es t (fireTimer s) hv.2 (goodInv_fire now t s hg hv.1.1)

/-- C1: for every valid sequence of inbound control events, immediately
after any event either the two activity flags are not both true, or the
state is inside the bounded auto-clear race following an ai_response: a
setTimeout callback is pending, every pending deadline is at most 2000 ms
after the current time, and firing the earliest pending callback clears
isSpeaking, resolving the race to at most one true flag. -/
theorem c1_listening_speaking_mutex (tr : List Event)
    (hv : validFrom 0 initMState tr = true) :
    (runFrom initMState tr).isListening = false ∨
    (runFrom initMState tr).isSpeaking = false ∨
    ((runFrom initMState tr).timers ≠ [] ∧
     (∀ d ∈ (runFrom initMState tr).timers, d ≤ endTime 0 tr + 2000) ∧
     (fireTimer (runFrom initMState tr)).isSpeaking = false) := by
  obtain ⟨h1, h2⟩ := goodInv_run tr 0 initMState hv goodInv_init
  by_cases hli : (runFrom initMState tr).isListening = true
  · by_cases hsp : (runFrom initMState tr).isSpeaking = true
    · refine Or.inr (Or.inr ⟨h1 hli hsp, h2, ?_⟩)
      cases htm : (runFrom initMState tr).timers with
      | nil => exact absurd htm (h1 hli hsp)
      | cons d0 rest => simp [fireTimer, htm]
    · exact Or.inr (Or.inl (by simpa using hsp))
  · exact Or.inl (by simpa using hli)

/-- Witness for C1 at a concrete trace: listening_started followed by an
ai_response at time 5 leaves both flags true, inside a race whose pending
deadline 2005 is within 2000 ms of the trace end and which resolves to at
most one true flag when the callback fires. -/
theorem c1_mutex_witness :
    validFrom 0 initMState
      [Event.recv 0 (WsFrame.decoded BackendMsg.listeningStarted),
       Event.recv 5 (WsFrame.decoded (BackendMsg.aiResponse "hi"))] = true ∧
    ((runFrom initMState
      [Event.recv 0 (WsFrame.decoded BackendMsg.listeningStarted),
       Event.recv 5 (WsFrame.decoded (BackendMsg.aiResponse "hi"))]).isListening = false ∨
     (runFrom initMState
      [Event.recv 0 (WsFrame.decoded BackendMsg.listeningStarted),
       Event.recv 5 (WsFrame.decoded (BackendMsg.aiResponse "hi"))]).isSpeaking = false ∨
     ((runFrom initMState
      [Event.recv 0 (WsFrame.decoded BackendMsg.listeningStarted),
       Event.recv 5 (WsFrame.decoded (BackendMsg.aiResponse "hi"))]).timers ≠ [] ∧
      (∀ d ∈ (runFrom initMState
        [Event.recv 0 (WsFrame.decoded BackendMsg.listeningStarted),
         Event.recv 5 (WsFrame.decoded (BackendMsg.aiResponse "hi"))]).timers,
        d ≤ endTime 0
          [Event.recv 0 (WsFrame.decoded BackendMsg.listeningStarted),
           Event.recv 5 (WsFrame.decoded (BackendMsg.aiResponse "hi"))] + 2000) ∧
      (fireTimer (runFrom initMState
        [Event.recv 0 (WsFrame.decoded BackendMsg.listeningStarted),
         Event.recv 5 (WsFrame.decoded (BackendMsg.aiResponse "hi"))])).isSpeaking = false)) :=
  ⟨by decide, c1_listening_speaking_mutex
    [Event.recv 0 (WsFrame.decoded BackendMsg.listeningStarted),
     Event.recv 5 (WsFrame.decoded (BackendMsg.aiResponse "hi"))] (by decide)⟩

lemma stepEv_messages (s : MState) (e : Event) :
    ∃ ts, (stepEv s e).messages = s.messages ++ ts := by
  cases e with
  | recv t f =>
    cases f with
    | malformed => exact ⟨[], by simp [stepEv, wsOnMessage]⟩
    | decoded data =>
      cases data with
      | userTranscript transcript =>
        exact ⟨[{ role := Role.user, content := transcript }],
          by simp [stepEv, wsOnMessage, handleMessageFromBackend]⟩
      | aiResponse text =>
        exact ⟨[{ role := Role.assistant, content := text }],
          by simp [stepEv, wsOnMessage, handleMessageFromBackend]⟩
      | listeningStarted => exact ⟨[], by simp [stepEv, wsOnMessage, handleMessageFromBackend]⟩
      | listeningStopped => exact ⟨[], by simp [stepEv, wsOnMessage, handleMessageFromBackend]⟩
      | processingStarted => exact ⟨[], by simp [stepEv, wsOnMessage, handleMessageFromBackend]⟩
      | processingStopped => exact ⟨[], by simp [stepEv, wsOnMessage, handleMessageFromBackend]⟩
      | sessionReady => exact ⟨[], by simp [stepEv, wsOnMessage, handleMessageFromBackend]⟩
      | sessionStopped => exact ⟨[], by simp [stepEv, wsOnMessage, handleMessageFromBackend]⟩
      | connectionEstablished =>
        exact ⟨[], by simp [stepEv, wsOnMessage, handleMessageFromBackend]⟩
      | errorMsg message => exact ⟨[], by simp [stepEv, wsOnMessage, handleMessageFromBackend]⟩
      | unknown ty => exact ⟨[], by simp [stepEv, wsOnMessage, handleMessageFromBackend]⟩
  | fire t =>
    cases htm : s.timers with
    | nil => exact ⟨[], by simp [stepEv, fireTimer, htm]⟩
    | cons d0 rest => exact ⟨[], by simp [stepEv, fireTimer, htm]⟩

lemma runFrom_messages (tr : List Event) : ∀ (s : MState),
    ∃ ts, (runFrom s tr).messages = s.messages ++ ts := by
  induction tr with
  | nil => exact fun s => ⟨[], by simp [runFrom]⟩
  | cons e es ih =>
    intro s
    obtain ⟨ts1, h1⟩ := stepEv_messages s e
    obtain ⟨ts2, h2⟩ := ih (stepEv s e)
    exact ⟨ts1 ++ ts2, by simp [runFrom, h2, h1]⟩

lemma runFrom_append (a : List Event) : ∀ (s : MState) (b : List Event),
    runFrom s (a ++ b) = runFrom (runFrom s a) b := by
  induction a with
  | nil => intro s b; simp [runFrom]
  | cons e es ih => intro s b; simp [runFrom, ih]

lemma recv_turn (t : Nat) (m : BackendMsg) (u : Turn) (s : MState)
    (h : turnOf m = some u) :
    (wsOnMessage t (WsFrame.decoded m) s).messages = s.messages ++ [u] := by
  cases m <;> simp [turnOf] at h <;>
    simp [wsOnMessage, handleMessageFromBackend, ← h]

lemma handleDataReceived_messages (s : MState) (f : WsFrame) :
    ∃ ts, (handleDataReceived f s).messages = s.messages ++ ts := by
  cases f with
  | malformed => exact ⟨[], by simp [handleDataReceived]⟩
  | decoded data =>
    cases data with
    | userTranscript transcript =>
      exact ⟨[{ role := Role.user, content := transcript }], by simp [handleDataReceived]⟩
    | aiResponse text =>
      exact ⟨[{ role := Role.assistant, content := text }], by simp [handleDataReceived]⟩
    | listeningStarted => exact ⟨[], by simp [handleDataReceived]⟩
    | listeningStopped => exact ⟨[], by simp [handleDataReceived]⟩
    | processingStarted => exact ⟨[], by simp [handleDataReceived]⟩
    | processingStopped => exact ⟨[], by simp [handleDataReceived]⟩
    | sessionReady => exact ⟨[], by simp [handleDataReceived]⟩
    | sessionStopped => exact ⟨[], by simp [handleDataReceived]⟩
    | connectionEstablished => exact ⟨[], by simp [handleDataReceived]⟩
    | errorMsg message => exact ⟨[], by simp [handleDataReceived]⟩
    | unknown ty => exact ⟨[], by simp [handleDataReceived]⟩

/-- C3: the transcript is append-only and arrival-ordered.  Every event-loop
step and every room-data packet only appends to the messages list (so no
handler ever edits or removes a turn), and for any trace in which a
turn-bearing message m1 is processed before a turn-bearing message m2, the
final messages list contains the turn of m1 strictly before the turn of
m2. -/
theorem c3_turns_append_only_ordered :
    (∀ (s : MState) (e : Event), ∃ ts, (stepEv s e).messages = s.messages ++ ts) ∧
    (∀ (s : MState) (f : WsFrame), ∃ ts, (handleDataReceived f s).messages = s.messages ++ ts) ∧
    (∀ (s : MState) (tr1 tr2 tr3 : List Event) (t1 t2 : Nat) (m1 m2 : BackendMsg)
        (u1 u2 : Turn), turnOf m1 = some u1 → turnOf m2 = some u2 →
      ∃ l0 l1 l2,
        (runFrom s (tr1 ++ Event.recv t1 (WsFrame.decoded m1) ::
          (tr2 ++ Event.recv t2 (WsFrame.decoded m2) :: tr3))).messages =
        l0 ++ u1 :: (l1 ++ u2 :: l2)) := by
  refine ⟨stepEv_messages, handleDataReceived_messages, ?_⟩
  intro s tr1 tr2 tr3 t1 t2 m1 m2 u1 u2 h1 h2
  rw [runFrom_append]
  have hstep1 : runFrom (runFrom s tr1) (Event.recv t1 (WsFrame.decoded m1) ::
      (tr2 ++ Event.recv t2 (WsFrame.decoded m2) :: tr3)) =
      runFrom (wsOnMessage t1 (WsFrame.decoded m1) (runFrom s tr1))
        (tr2 ++ Event.recv t2 (WsFrame.decoded m2) :: tr3) := rfl
  rw [hstep1, runFrom_append]
  obtain ⟨ts2, hts2⟩ :=
    runFrom_messages tr2 (wsOnMessage t1 (WsFrame.decoded m1) (runFrom s tr1))
  have hstep2 : runFrom (runFrom (wsOnMessage t1 (WsFrame.decoded m1) (runFrom s tr1)) tr2)
      (Event.recv t2 (WsFrame.decoded m2) :: tr3) =
      runFrom (wsOnMessage t2 (WsFrame.decoded m2)
        (runFrom (wsOnMessage t1 (WsFrame.decoded m1) (runFrom s tr1)) tr2)) tr3 := rfl
  rw [hstep2]
  obtain ⟨ts3, hts3⟩ := runFrom_messages tr3 (wsOnMessage t2 (WsFrame.decoded m2)
    (runFrom (wsOnMessage t1 (WsFrame.decoded m1) (runFrom s tr1)) tr2))
  rw [hts3, recv_turn t2 m2 u2 _ h2, hts2, recv_turn t1 m1 u1 _ h1]
  exact ⟨(runFrom s tr1).messages, ts2, ts3, by simp⟩

/-- Witness for C3 at concrete inputs: a user_transcript followed by an
ai_response on the empty trace context. -/
theorem c3_turns_witness :
    turnOf (BackendMsg.userTranscript "hi") = some { role := Role.user, content := "hi" } ∧
    ∃ l0 l1 l2,
      (runFrom initMState ([] ++ Event.recv 0 (WsFrame.decoded (BackendMsg.userTranscript "hi")) ::
        ([] ++ Event.recv 1 (WsFrame.decoded (BackendMsg.aiResponse "yo")) :: []))).messages =
      l0 ++ { role := Role.user, content := "hi" } :: (l1 ++ { role := Role.assistant, content := "yo" } :: l2) :=
  ⟨by decide, c3_turns_append_only_ordered.2.2 initMState [] [] [] 0 1
    (BackendMsg.userTranscript "hi") (BackendMsg.aiResponse "yo") _ _ (by decide) (by decide)⟩

/-- The concrete event trace exhibiting the stale auto-clear timer: an
ai_response arrives at time 0, processing_started arrives at time 1000 and
sets isSpeaking to true, and the callback registered by the ai_response
fires at its deadline 2000. -/
def staleTimerTrace : List Event :=
  [Event.recv 0 (WsFrame.decoded (BackendMsg.aiResponse "a")),
   Event.recv 1000 (WsFrame.decoded BackendMsg.processingStarted),
   Event.fire 2000]

/-- C4: the code never cancels the 2-second auto-clear timer.  On the valid
trace ai_response at 0, processing_started at 1000, timer fires at 2000, the
state after processing_started has isSpeaking true (with the callback still
pending), yet after the stale callback fires isSpeaking is false: the timer
registered by the earlier ai_response overrides the later, more
authoritative processing_started event instead of being cancelled or
superseded. -/
theorem c4_stale_timer_overrides :
    validFrom 0 initMState staleTimerTrace = true ∧
    (runFrom initMState (List.take 2 staleTimerTrace)).isSpeaking = true ∧
    (runFrom initMState (List.take 2 staleTimerTrace)).timers = [2000] ∧
    (runFrom initMState staleTimerTrace).isSpeaking = false := by
  refine ⟨by decide, by decide, by decide, by decide⟩

/-- C5 counterexample: a malformed (JSON-undecodable) frame on the backend
WebSocket does not leave the state unchanged — the onmessage catch block
sets the error field, which was previously none. -/
theorem c5_malformed_sets_error_counterexample :
    initMState.error = none ∧
    (wsOnMessage 0 WsFrame.malformed initMState).error =
      some "Error processing response from voice service" :=
  ⟨rfl, rfl⟩

/-- C5 amended: a message with an unknown type discriminator is dropped with
no effect by both handlers, and a malformed frame on the room data channel
is dropped with no effect; but a malformed frame on the backend WebSocket
sets the error field to a fixed message while leaving connectionStatus,
isListening, isSpeaking, the transcript, and the pending timers unchanged. -/
theorem c5_unknown_dropped_malformed_error_only :
    ∀ (t : Nat) (s : MState) (ty : String),
    wsOnMessage t (WsFrame.decoded (BackendMsg.unknown ty)) s = s ∧
    handleDataReceived WsFrame.malformed s = s ∧
    handleDataReceived (WsFrame.decoded (BackendMsg.unknown ty)) s = s ∧
    (wsOnMessage t WsFrame.malformed s).error =
      some "Error processing response from voice service" ∧
    (wsOnMessage t WsFrame.malformed s).connectionStatus = s.connectionStatus ∧
    (wsOnMessage t WsFrame.malformed s).isConnected = s.isConnected ∧
    (wsOnMessage t WsFrame.malformed s).isListening = s.isListening ∧
    (wsOnMessage t WsFrame.malformed s).isSpeaking = s.isSpeaking ∧
    (wsOnMessage t WsFrame.malformed s).messages = s.messages ∧
    (wsOnMessage t WsFrame.malformed s).timers = s.timers :=
  fun _ _ _ => ⟨rfl, rfl, rfl, rfl, rfl, rfl, rfl, rfl, rfl, rfl⟩

/-- Witness for C5 amended at concrete inputs. -/
theorem c5_unknown_dropped_witness :
    wsOnMessage 3 (WsFrame.decoded (BackendMsg.unknown "mystery")) initMState = initMState ∧
    handleDataReceived WsFrame.malformed initMState = initMState ∧
    handleDataReceived (WsFrame.decoded (BackendMsg.unknown "mystery")) initMState = initMState ∧
    (wsOnMessage 3 WsFrame.malformed initMState).error =
      some "Error processing response from voice service" ∧
    (wsOnMessage 3 WsFrame.malformed initMState).connectionStatus = initMState.connectionStatus ∧
    (wsOnMessage 3 WsFrame.malformed initMState).isConnected = initMState.isConnected ∧
    (wsOnMessage 3 WsFrame.malformed initMState).isListening = initMState.isListening ∧
    (wsOnMessage 3 WsFrame.malformed initMState).isSpeaking = initMState.isSpeaking ∧
    (wsOnMessage 3 WsFrame.malformed initMState).messages = initMState.messages ∧
    (wsOnMessage 3 WsFrame.malformed initMState).timers = initMState.timers :=
  c5_unknown_dropped_malformed_error_only 3 initMState "mystery"

/-- C9 counterexample: an inbound error message carrying the empty string as
its message text does not store the carried text — the JavaScript
short-circuit data.message || default treats the empty string as falsy, so
the stored error is the default text instead. -/
theorem c9_empty_message_default_counterexample :
    (handleMessageFromBackend 0 (BackendMsg.errorMsg (some "")) initMState).error =
      some "Unknown error from backend" ∧
    (handleMessageFromBackend 0 (BackendMsg.errorMsg (some "")) initMState).error ≠
      some "" := by
  refine ⟨rfl, by decide⟩

/-- C9 amended: an inbound error message sets the error field to the carried
text when it is nonempty and to the default Unknown error from backend when
the message field is absent or empty, and changes nothing else: status,
flags, transcript and pending timers are untouched and no disconnect is
forced. -/
theorem c9_error_message_frame :
    ∀ (t : Nat) (message : Option String) (s : MState),
    (handleMessageFromBackend t (BackendMsg.errorMsg message) s).error =
      some (jsOr message "Unknown error from backend") ∧
    (∀ str, str ≠ "" → jsOr (some str) "Unknown error from backend" = str) ∧
    jsOr none "Unknown error from backend" = "Unknown error from backend" ∧
    jsOr (some "") "Unknown error from backend" = "Unknown error from backend" ∧
    (handleMessageFromBackend t (BackendMsg.errorMsg message) s).connectionStatus =
      s.connectionStatus ∧
    (handleMessageFromBackend t (BackendMsg.errorMsg message) s).isConnected = s.isConnected ∧
    (handleMessageFromBackend t (BackendMsg.errorMsg message) s).isListening = s.isListening ∧
    (handleMessageFromBackend t (BackendMsg.errorMsg message) s).isSpeaking = s.isSpeaking ∧
    (handleMessageFromBackend t (BackendMsg.errorMsg message) s).messages = s.messages ∧
    (handleMessageFromBackend t (BackendMsg.errorMsg message) s).timers = s.timers := by
  intro t message s
  refine ⟨rfl, ?_, rfl, rfl, rfl, rfl, rfl, rfl, rfl, rfl⟩
  intro str hstr
  simp [jsOr, hstr]

/-- Witness for C9 amended at concrete inputs, discharging the nonempty-text
hypothesis at the string oops. -/
theorem c9_error_message_witness :
    (handleMessageFromBackend 7 (BackendMsg.errorMsg (some "oops")) initMState).error =
      some (jsOr (some "oops") "Unknown error from backend") ∧
    jsOr (some "oops") "Unknown error from backend" = "oops" ∧
    (handleMessageFromBackend 7 (BackendMsg.errorMsg (some "oops")) initMState).connectionStatus =
      initMState.connectionStatus :=
  ⟨(c9_error_message_frame 7 (some "oops") initMState).1,
   (c9_error_message_frame 7 (some "oops") initMState).2.1 "oops" (by decide),
   (c9_error_message_frame 7 (some "oops") initMState).2.2.2.2.1⟩

/-- MediaRecorder state as used by the hook (pause is never used). -/
inductive RecState
  | inactive
  | recording
deriving DecidableEq

/-- Lifecycle state of one MediaStreamTrack of the captured stream. -/
inductive TrackSt
  | live
  | ended
deriving DecidableEq

/-- The browser resources held in the refs of the hook.  ws and room hold
true while the underlying connection is open; audioStream holds the track
states of the captured stream; animationFrame holds a pending
requestAnimationFrame id. -/
structure Res where
  mediaRecorder : Option RecState
  audioStream : Option (List TrackSt)
  audioContext : Option Bool
  ws : Option Bool
  room : Option Bool
  animationFrame : Option Nat
deriving DecidableEq

/-- The MediaRecorder.stop() browser primitive: stopping an inactive
recorder raises InvalidStateError (second component true means an exception
was thrown); stopping a recording recorder succeeds and fires the onstop
handler, which the hook sets to stopVoiceActivityDetection. -/
def stopRecorderCall (rs : RecState) : RecState × Bool :=
  match rs with
  | RecState.recording => (RecState.inactive, false)
  | RecState.inactive => (RecState.inactive, true)

/-- MediaStreamTrack.stop() applied to every track of the stream, as in
getTracks().forEach(track =&gt; track.stop()).  Stopping a track is
idempotent and never throws; the second component counts how many live
tracks actually released their hardware handle. -/
def stopAllTracks (ts : List TrackSt) : List TrackSt × Nat :=
  (List.map (fun _ => TrackSt.ended) ts,
   List.length (List.filter (fun tk => decide (tk = TrackSt.live)) ts))

/-- The guarded recorder teardown shared by the onclose handler and the
unmount cleanup: stop the recorder only when its state is not inactive.  A
successful stop fires onstop, whose handler cancels the voice-activity
animation frame.  Returns (resources, threw). -/
def stopRecorderGuarded (r : Res) : Res × Bool :=
  match r.mediaRecorder with
  | some rs =>
    if rs ≠ RecState.inactive then
      let p := stopRecorderCall rs
      ({ r with mediaRecorder := some p.1, animationFrame := none }, p.2)
    else (r, false)
  | none => (r, false)

/-- The resource part of the wsRef.current.onclose handler (stop recorder if
active, release the captured tracks, close the audio context, disconnect the
room).  Returns (resources, released track count, threw). -/
def teardownOnClose (r : Res) : Res × Nat × Bool :=
  let p := stopRecorderGuarded r
  let r := p.1
  let q : Res × Nat :=
    match r.audioStream with
    | some ts => ({ r with audioStream := some (stopAllTracks ts).1 }, (stopAllTracks ts).2)
    | none => (r, 0)
  let r := q.1
  let r :=
    match r.audioContext with
    | some _ => { r with audioContext := some false }
    | none => r
  let r :=
    match r.room with
    | some _ => { r with room := some false }
    | none => r
  (r, q.2, p.2)

/-- The unmount cleanup returned by the useEffect hook: same teardown plus
wsRef.current.close(), roomRef.current.disconnect() and
cancelAnimationFrame.  Returns (resources, released track count, threw). -/
def unmountCleanup (r : Res) : Res × Nat × Bool :=
  let p := stopRecorderGuarded r
  let r := p.1
  let q : Res × Nat :=
    match r.audioStream with
    | some ts => ({ r with audioStream := some (stopAllTracks ts).1 }, (stopAllTracks ts).2)
    | none => (r, 0)
  let r := q.1
  let r :=
    match r.audioContext with
    | some _ => { r with audioContext := some false }
    | none => r
  let r :=
    match r.ws with
    | some _ => { r with ws := some false }
    | none => r
  let r :=
    match r.room with
    | some _ => { r with room := some false }
    | none => r
  let r :=
    match r.animationFrame with
    | some _ => { r with animationFrame := none }
    | none => r
  (r, q.2, p.2)

/-- A WebSocket close event as seen by the onclose handler. -/
structure CloseEvent where
  code : Nat
  reason : String
deriving DecidableEq

/-- The full wsRef.current.onclose handler: the socket that closed is now
closed, setIsConnected(false), resource teardown, then the status and error
updates chosen by the close code (1000 is a normal closure). -/
def wsOnClose (ev : CloseEvent) (s : MState) (r : Res) : MState × Res × Nat × Bool :=
  let r := { r with ws := Option.map (fun _ => false) r.ws }
  let s := { s with isConnected := false }
  let p := teardownOnClose r
  let s :=
    if ev.code ≠ 1000 then
      { s with
          error := some ("Connection closed: " ++ jsOrStr ev.reason "Unknown reason" ++
            " (Code: " ++ toString ev.code ++ ")")
          connectionStatus := Status.error }
    else { s with connectionStatus := Status.disconnected }
  (s, p.1, p.2.1, p.2.2)

/-- Initial refs: nothing allocated yet. -/
def initRes : Res :=
  { mediaRecorder := none, audioStream := none, audioContext := none,
    ws := none, room := none, animationFrame := none }

/-- A fully allocated resource state in the middle of a live recording. -/
def liveRes : Res :=
  { mediaRecorder := some RecState.recording
    audioStream := some [TrackSt.live, TrackSt.live]
    audioContext := some true
    ws := some true
    room := some true
    animationFrame := some 7 }

/-- C6 counterexample: a normal closure (code 1000) while isListening is
true moves connectionStatus to disconnected but does not clear the
transient isListening flag, contradicting the claim that all transient
flags are cleared on a normal close. -/
theorem c6_normal_close_keeps_flags_counterexample :
    ((wsOnClose { code := 1000, reason := "" }
        { initMState with isListening := true, connectionStatus := Status.connected }
        liveRes).1).connectionStatus = Status.disconnected ∧
    ((wsOnClose { code := 1000, reason := "" }
        { initMState with isListening := true, connectionStatus := Status.connected }
        liveRes).1).isListening = true := by
  refine ⟨by decide, by decide⟩

/-- C6 amended: the onclose handler always clears isConnected; a normal
close (code 1000) sets connectionStatus to disconnected leaving the error
field as it was, and an abnormal close sets connectionStatus to error and
records the close reason and code in the error field; the transient
isListening and isSpeaking flags are left unchanged by the handler. -/
theorem c6_close_status_and_error :
    ∀ (ev : CloseEvent) (s : MState) (r : Res),
    ((wsOnClose ev s r).1).isConnected = false ∧
    (ev.code = 1000 →
      ((wsOnClose ev s r).1).connectionStatus = Status.disconnected ∧
      ((wsOnClose ev s r).1).error = s.error) ∧
    (ev.code ≠ 1000 →
      ((wsOnClose ev s r).1).connectionStatus = Status.error ∧
      ((wsOnClose ev s r).1).error =
        some ("Connection closed: " ++ jsOrStr ev.reason "Unknown reason" ++
          " (Code: " ++ toString ev.code ++ ")")) ∧
    ((wsOnClose ev s r).1).isListening = s.isListening ∧
    ((wsOnClose ev s r).1).isSpeaking = s.isSpeaking ∧
    ((wsOnClose ev s r).1).messages = s.messages := by
  intro ev s r
  by_cases h : ev.code = 1000
  · refine ⟨?_, fun _ => ⟨?_, ?_⟩, fun hne => absurd h hne, ?_, ?_, ?_⟩ <;>
      simp [wsOnClose, h]
  · refine ⟨?_, fun heq => absurd heq h, fun _ => ⟨?_, ?_⟩, ?_, ?_, ?_⟩ <;>
      simp [wsOnClose, h]

/-- Witness for C6 amended at a concrete abnormal close event. -/
theorem c6_close_witness :
    (1006 ≠ 1000) ∧
    ((wsOnClose { code := 1006, reason := "gone" } initMState liveRes).1).connectionStatus =
      Status.error ∧
    ((wsOnClose { code := 1006, reason := "gone" } initMState liveRes).1).error =
      some ("Connection closed: " ++ jsOrStr "gone" "Unknown reason" ++
        " (Code: " ++ toString (1006 : Nat) ++ ")") ∧
    ((wsOnClose { code := 1006, reason := "gone" } initMState liveRes).1).isListening =
      initMState.isListening :=
  ⟨by decide,
   ((c6_close_status_and_error { code := 1006, reason := "gone" } initMState liveRes).2.2.1
     (by decide)).1,
   ((c6_close_status_and_error { code := 1006, reason := "gone" } initMState liveRes).2.2.1
     (by decide)).2,
   (c6_close_status_and_error { code := 1006, reason := "gone" } initMState liveRes).2.2.2.1⟩

lemma stopRecorderGuarded_threw (r : Res) : (stopRecorderGuarded r).2 = false := by
  cases hmr : r.mediaRecorder with
  | none => simp [stopRecorderGuarded, hmr]
  | some rs => cases rs <;> simp [stopRecorderGuarded, hmr, stopRecorderCall]

lemma map_ended_of_all_ended {ts : List TrackSt} (h : ∀ tk ∈ ts, tk = TrackSt.ended) :
    List.map (fun _ => TrackSt.ended) ts = ts := by
  induction ts with
  | nil => rfl
  | cons a l ih =>
    have ha := h a (by simp)
    simp [ha, ih (fun tk htk => h tk (by simp [htk]))]

lemma filter_live_of_all_ended {ts : List TrackSt} (h : ∀ tk ∈ ts, tk = TrackSt.ended) :
    List.filter (fun tk => decide (tk = TrackSt.live)) ts = [] := by
  induction ts with
  | nil => rfl
  | cons a l ih =>
    have ha := h a (by simp)
    subst ha
    simpa using ih (fun tk htk => h tk (by simp [htk]))

/-- All browser resources in their released state: recorder stopped, every
captured track ended, audio context closed, both connections closed, no
pending animation frame. -/
def ClosedRes (r : Res) : Prop :=
  (r.mediaRecorder = none ∨ r.mediaRecorder = some RecState.inactive) ∧
  (∀ ts, r.audioStream = some ts → ∀ tk ∈ ts, tk = TrackSt.ended) ∧
  (r.audioContext = none ∨ r.audioContext = some false) ∧
  (r.ws = none ∨ r.ws = some false) ∧
  (r.room = none ∨ r.room = some false) ∧
  r.animationFrame = none

lemma teardownOnClose_eq (r : Res) :
    teardownOnClose r =
      ({ mediaRecorder := Option.map (fun _ => RecState.inactive) r.mediaRecorder
         audioStream := Option.map (List.map (fun _ => TrackSt.ended)) r.audioStream
         audioContext := Option.map (fun _ => false) r.audioContext
         ws := r.ws
         room := Option.map (fun _ => false) r.room
         animationFrame :=
           if r.mediaRecorder = some RecState.recording then none else r.animationFrame },
       (match r.audioStream with
        | some ts => List.length (List.filter (fun tk => decide (tk = TrackSt.live)) ts)
        | none => 0),
       false) := by
  obtain ⟨mr, as, ac, w, rm, af⟩ := r
  rcases mr with _ | rs
  · rcases as with _ | ts <;> rcases ac with _ | b1 <;> rcases rm with _ | b2 <;>
      simp [teardownOnClose, stopRecorderGuarded, stopRecorderCall, stopAllTracks]
  · rcases rs <;> rcases as with _ | ts <;> rcases ac with _ | b1 <;> rcases rm with _ | b2 <;>
      simp [teardownOnClose, stopRecorderGuarded, stopRecorderCall, stopAllTracks]

lemma unmountCleanup_eq (r : Res) :
    unmountCleanup r =
      ({ mediaRecorder := Option.map (fun _ => RecState.inactive) r.mediaRecorder
         audioStream := Option.map (List.map (fun _ => TrackSt.ended)) r.audioStream
         audioContext := Option.map (fun _ => false) r.audioContext
         ws := Option.map (fun _ => false) r.ws
         room := Option.map (fun _ => false) r.room
         animationFrame := none },
       (match r.audioStream with
        | some ts => List.length (List.filter (fun tk => decide (tk = TrackSt.live)) ts)
        | none => 0),
       false) := by
  obtain ⟨mr, as, ac, w, rm, af⟩ := r
  rcases mr with _ | rs
  · rcases as with _ | ts <;> rcases ac with _ | b1 <;> rcases w with _ | b2 <;>
      rcases rm with _ | b3 <;> rcases af with _ | k <;>
      simp [unmountCleanup, stopRecorderGuarded, stopRecorderCall, stopAllTracks]
  · rcases rs <;> rcases as with _ | ts <;> rcases ac with _ | b1 <;> rcases w with _ | b2 <;>
      rcases rm with _ | b3 <;> rcases af with _ | k <;>
      simp [unmountCleanup, stopRecorderGuarded, stopRecorderCall, stopAllTracks]

lemma teardownOnClose_closed (r : Res)
    (hws : r.ws = none ∨ r.ws = some false)
    (haf : r.animationFrame = none ∨ r.mediaRecorder = some RecState.recording) :
    ClosedRes (teardownOnClose r).1 := by
  rw [teardownOnClose_eq]
  refine ⟨?_, ?_, ?_, ?_, ?_, ?_⟩
  · cases r.mediaRecorder with
    | none => exact Or.inl rfl
    | some rs => exact Or.inr rfl
  · intro ts2 hts2 tk htk
    cases has : r.audioStream with
    | none =>
      rw [has] at hts2
      exact absurd hts2 (by simp)
    | some ts =>
      rw [has] at hts2
      have hmap : List.map (fun _ => TrackSt.ended) ts = ts2 := by
        simpa using hts2
      rw [← hmap, List.mem_map] at htk
      obtain ⟨a, ha1, ha2⟩ := htk
      exact ha2.symm
  · cases r.audioContext with
    | none => exact Or.inl rfl
    | some b => exact Or.inr rfl
  · exact hws
  · cases r.room with
    | none => exact Or.inl rfl
    | some b => exact Or.inr rfl
  · by_cases hmr : r.mediaRecorder = some RecState.recording
    · simp [hmr]
    · rcases haf with haf | haf
      · simp [hmr, haf]
      · exact absurd haf hmr

lemma unmountCleanup_closed (r : Res) (h : ClosedRes r) :
    unmountCleanup r = (r, 0, false) := by
  obtain ⟨mr, as, ac, w, rm, af⟩ := r
  obtain ⟨h1, h2, h3, h4, h5, h6⟩ := h
  simp only at h1 h2 h3 h4 h5 h6
  subst h6
  rcases as with _ | ts
  · rcases h1 with h1 | h1 <;> subst h1 <;>
      rcases h3 with h3 | h3 <;> subst h3 <;>
      rcases h4 with h4 | h4 <;> subst h4 <;>
      rcases h5 with h5 | h5 <;> subst h5 <;>
      simp [unmountCleanup_eq]
  · have hts := h2 ts rfl
    rcases h1 with h1 | h1 <;> subst h1 <;>
      rcases h3 with h3 | h3 <;> subst h3 <;>
      rcases h4 with h4 | h4 <;> subst h4 <;>
      rcases h5 with h5 | h5 <;> subst h5 <;>
      simp [unmountCleanup_eq, map_ended_of_all_ended hts, filter_live_of_all_ended hts]

/-- C7: teardown is idempotent.  For any close event, running the onclose
handler never throws, and then running the unmount cleanup as well throws
nothing, releases zero further tracks (the stream is not double-released)
and returns the resources exactly unchanged.  The hypothesis records the
invariant maintained by the recorder callbacks of the source: a voice
activity animation frame is only pending while the recorder is recording. -/
theorem c7_teardown_idempotent (ev : CloseEvent) (s : MState) (r : Res)
    (h : r.animationFrame = none ∨ r.mediaRecorder = some RecState.recording) :
    (wsOnClose ev s r).2.2.2 = false ∧
    unmountCleanup (wsOnClose ev s r).2.1 = ((wsOnClose ev s r).2.1, 0, false) := by
  have hthrew : (wsOnClose ev s r).2.2.2 =
      (stopRecorderGuarded { r with ws := Option.map (fun _ => false) r.ws }).2 := by
    simp [wsOnClose, teardownOnClose]
  have hres : (wsOnClose ev s r).2.1 =
      (teardownOnClose { r with ws := Option.map (fun _ => false) r.ws }).1 := by
    by_cases hc : ev.code = 1000 <;> simp [wsOnClose, hc]
  constructor
  · rw [hthrew]
    exact stopRecorderGuarded_threw _
  · rw [hres]
    refine unmountCleanup_closed _ (teardownOnClose_closed _ ?_ ?_)
    · cases hw : r.ws with
      | none => exact Or.inl (by simp [hw])
      | some b => exact Or.inr (by simp [hw])
    · simpa using h

/-- Witness for C7 at a fully allocated live resource state. -/
theorem c7_teardown_witness :
    (liveRes.animationFrame = none ∨ liveRes.mediaRecorder = some RecState.recording) ∧
    (wsOnClose { code := 1000, reason := "" } initMState liveRes).2.2.2 = false ∧
    unmountCleanup (wsOnClose { code := 1000, reason := "" } initMState liveRes).2.1 =
      ((wsOnClose { code := 1000, reason := "" } initMState liveRes).2.1, 0, false) :=
  ⟨by decide,
   (c7_teardown_idempotent { code := 1000, reason := "" } initMState liveRes (by decide)).1,
   (c7_teardown_idempotent { code := 1000, reason := "" } initMState liveRes (by decide)).2⟩

/-- The session data returned by POST /sessions. -/
structure Session where
  session_id : String
  livekit_room : Option String
  livekit_user_token : Option String
deriving DecidableEq

/-- The client world seen by connectToVoiceService and the listening
operations: the React state, the session refs, an accounting of the
WebSocket objects constructed (each new WebSocket gets the next id;
wsRef holds the id of the socket currently referenced; wsClosed lists
the ids on which close was ever called), how many backend sessions were
created, whether the referenced socket currently has readyState OPEN, the
media recorder state, and the control actions sent to the backend. -/
structure World where
  st : MState
  sessionId : Option String
  sessionData : Option Session
  wsRef : Option Nat
  wsCreated : Nat
  wsClosed : List Nat
  sessionsCreated : Nat
  wsOpen : Bool
  recorder : Option RecState
  sent : List String
deriving DecidableEq

/-- Fresh world before the first connect call. -/
def initWorld : World :=
  { st := initMState
    sessionId := none
    sessionData := none
    wsRef := none
    wsCreated := 0
    wsClosed := []
    sessionsCreated := 0
    wsOpen := false
    recorder := none
    sent := [] }

/-- connectToVoiceService: set status connecting and clear the error, reuse
the stored session data when present and otherwise create a session via the
backend (sess is the response the backend returns to createSession, which
also stores the session id and data), then unconditionally construct a new
WebSocket and overwrite wsRef with it.  The previously referenced socket is
neither closed nor kept. -/
def connectToVoiceService (sess : Session) (w : World) : World :=
  let w := { w with st := { w.st with connectionStatus := Status.connecting, error := none } }
  let w :=
    match w.sessionData with
    | some _ => w
    | none =>
        { w with sessionsCreated := w.sessionsCreated + 1
                 sessionId := some sess.session_id
                 sessionData := some sess }
  { w with wsRef := some w.wsCreated
           wsCreated := w.wsCreated + 1
           wsOpen := false }

/-- startListening: connect first when not connected, then send the start
control action if the referenced socket is open, then start the media
recorder if it is inactive.  It never writes the isListening state. -/
def startListening (sess : Session) (w : World) : World :=
  let w := if w.st.isConnected then w else connectToVoiceService sess w
  let w := if w.wsOpen then { w with sent := w.sent ++ ["start"] } else w
  match w.recorder with
  | some RecState.inactive => { w with recorder := some RecState.recording }
  | _ => w

/-- stopListening: send the stop control action if the referenced socket is
open, then stop the media recorder if it is recording.  It never writes the
isListening state. -/
def stopListening (w : World) : World :=
  let w := if w.wsOpen then { w with sent := w.sent ++ ["stop"] } else w
  match w.recorder with
  | some RecState.recording => { w with recorder := some RecState.inactive }
  | _ => w

/-- toggleListening: dispatch on the current isListening state. -/
def toggleListening (sess : Session) (w : World) : World :=
  if w.st.isListening then stopListening w else startListening sess w

/-- The session response used in the concrete scenarios. -/
def sess0 : Session :=
  { session_id := "abc123", livekit_room := some "r1", livekit_user_token := some "t1" }

/-- C2 counterexample: two successive connectToVoiceService calls from the
fresh world construct two WebSocket objects and never close the first one,
so two channel resources exist side by side, contradicting the claim that no
second channel is created; the session, in contrast, is created once. -/
theorem c2_double_connect_counterexample :
    (connectToVoiceService sess0 (connectToVoiceService sess0 initWorld)).wsCreated = 2 ∧
    (connectToVoiceService sess0 (connectToVoiceService sess0 initWorld)).wsClosed = [] ∧
    (connectToVoiceService sess0 initWorld).wsRef = some 0 ∧
    (connectToVoiceService sess0 (connectToVoiceService sess0 initWorld)).wsRef = some 1 ∧
    (connectToVoiceService sess0 (connectToVoiceService sess0 initWorld)).sessionsCreated = 1 := by
  refine ⟨by decide, by decide, by decide, by decide, by decide⟩

/-- C2 amended: each connectToVoiceService call constructs exactly one new
WebSocket and closes none, so a second call yields a second channel
alongside the unclosed first; the session however is reused: a call finding
stored session data creates no session and keeps it, and only a call finding
none creates one. -/
theorem c2_connect_session_reuse_channel_dup :
    ∀ (sess : Session) (w : World),
    (connectToVoiceService sess w).wsCreated = w.wsCreated + 1 ∧
    (connectToVoiceService sess w).wsRef = some w.wsCreated ∧
    (connectToVoiceService sess w).wsClosed = w.wsClosed ∧
    (w.sessionData = none →
      (connectToVoiceService sess w).sessionsCreated = w.sessionsCreated + 1 ∧
      (connectToVoiceService sess w).sessionData = some sess) ∧
    (∀ sd, w.sessionData = some sd →
      (connectToVoiceService sess w).sessionsCreated = w.sessionsCreated ∧
      (connectToVoiceService sess w).sessionData = some sd) := by
  intro sess w
  cases hsd : w.sessionData with
  | none =>
    refine ⟨?_, ?_, ?_, fun _ => ⟨?_, ?_⟩, fun sd hsd2 => absurd hsd2 (by simp [hsd])⟩ <;>
      simp [connectToVoiceService, hsd]
  | some sd0 =>
    refine ⟨?_, ?_, ?_, fun hnone => absurd hnone (by simp [hsd]), fun sd hsd2 => ?_⟩ <;>
      simp_all [connectToVoiceService, hsd]

/-- Witness for C2 amended: the second connect call from the fresh world. -/
theorem c2_connect_witness :
    (connectToVoiceService sess0 initWorld).sessionData = some sess0 ∧
    (connectToVoiceService sess0 (connectToVoiceService sess0 initWorld)).wsCreated =
      (connectToVoiceService sess0 initWorld).wsCreated + 1 ∧
    (connectToVoiceService sess0 (connectToVoiceService sess0 initWorld)).sessionsCreated =
      (connectToVoiceService sess0 initWorld).sessionsCreated :=
  ⟨by decide,
   (c2_connect_session_reuse_channel_dup sess0 (connectToVoiceService sess0 initWorld)).1,
   ((c2_connect_session_reuse_channel_dup sess0
      (connectToVoiceService sess0 initWorld)).2.2.2.2 sess0 (by decide)).1⟩

/-- C10: the isListening flag is written only by the inbound-message
handler.  The public operations startListening, stopListening and
toggleListening (including the connect call startListening makes when not
connected) leave isListening untouched, while listening_started sets it
true and listening_stopped and processing_started set it false; hence a
stopListening call that is not followed by a listening_stopped message
leaves isListening true. -/
theorem c10_isListening_only_from_backend :
    ∀ (sess : Session) (w : World) (t : Nat) (s : MState),
    (startListening sess w).st.isListening = w.st.isListening ∧
    (stopListening w).st.isListening = w.st.isListening ∧
    (toggleListening sess w).st.isListening = w.st.isListening ∧
    (connectToVoiceService sess w).st.isListening = w.st.isListening ∧
    (handleMessageFromBackend t BackendMsg.listeningStarted s).isListening = true ∧
    (handleMessageFromBackend t BackendMsg.listeningStopped s).isListening = false ∧
    (handleMessageFromBackend t BackendMsg.processingStarted s).isListening = false ∧
    (w.st.isListening = true → (stopListening w).st.isListening = true) := by
  intro sess w t s
  have hconn : (connectToVoiceService sess w).st.isListening = w.st.isListening := by
    cases hsd : w.sessionData <;> simp [connectToVoiceService, hsd]
  have hstop : (stopListening w).st.isListening = w.st.isListening := by
    by_cases hop : w.wsOpen <;>
      cases hrec : w.recorder with
      | none => simp [stopListening, hop, hrec]
      | some rs => cases rs <;> simp [stopListening, hop, hrec]
  have hstart : (startListening sess w).st.isListening = w.st.isListening := by
    by_cases hc : w.st.isConnected
    · by_cases hop : w.wsOpen <;>
        cases hrec : w.recorder with
        | none => simp [startListening, hc, hop, hrec]
        | some rs => cases rs <;> simp [startListening, hc, hop, hrec]
    · have h1 : startListening sess w =
          (let w2 := connectToVoiceService sess w
           let w2 := if w2.wsOpen then { w2 with sent := w2.sent ++ ["start"] } else w2
           match w2.recorder with
           | some RecState.inactive => { w2 with recorder := some RecState.recording }
           | _ => w2) := by
        simp [startListening, hc]
      rw [h1]
      by_cases hop : (connectToVoiceService sess w).wsOpen <;>
        cases hrec : (connectToVoiceService sess w).recorder with
        | none => simp [hop, hrec, hconn]
        | some rs => cases rs <;> simp [hop, hrec, hconn]
  refine ⟨hstart, hstop, ?_, hconn, rfl, rfl, rfl, fun hl => by rw [hstop, hl]⟩
  by_cases hl : w.st.isListening
  · simp [toggleListening, hl, hstop]
  · simp [toggleListening, hl, hstart]

/-- Witness for C10 at concrete inputs: a connected, open, recording world
with isListening true, so the final implication fires. -/
theorem c10_isListening_witness :
    (stopListening
      { initWorld with
          st := { initMState with isListening := true, isConnected := true }
          wsOpen := true
          recorder := some RecState.recording }).st.isListening = true :=
  (c10_isListening_only_from_backend sess0
    { initWorld with
        st := { initMState with isListening := true, isConnected := true }
        wsOpen := true
        recorder := some RecState.recording } 0 initMState).2.2.2.2.2.2.2 rfl

/-- The fixed normalization constant of startVoiceActivityDetection. -/
def sensitivity : ℚ := 30

/-- One voice activity sample dispatched by detectVoiceActivity: overall
loudness plus low, mid and high band energies. -/
structure VadSample where
  overall : ℚ
  low : ℚ
  mid : ℚ
  high : ℚ
deriving DecidableEq

/-- The body of detectVoiceActivity applied to one getByteFrequencyData
readout, given as the list of byte values of the frequency bins.  midFreq
and highFreq are the floor divisions of the source; the accumulation loop
adds bin i to lowSum when i is below midFreq, to midSum when i is below
highFreq, and to highSum otherwise, which is exactly the sum over the take
midFreq prefix, the take highFreq drop midFreq middle range, and the drop
highFreq suffix. -/
def detectVoiceActivity (data : List ℕ) : VadSample :=
  let bufferLength := data.length
  let average : ℚ := (data.sum : ℚ) / (bufferLength : ℚ)
  let midFreq := bufferLength / 3
  let highFreq := 2 * bufferLength / 3
  let lowAvg : ℚ := ((data.take midFreq).sum : ℚ) / ((midFreq : ℕ) : ℚ)
  let midAvg : ℚ := (((data.take highFreq).drop midFreq).sum : ℚ) / ((highFreq - midFreq : ℕ) : ℚ)
  let highAvg : ℚ := ((data.drop highFreq).sum : ℚ) / ((bufferLength - highFreq : ℕ) : ℚ)
  { overall := min 1 (average / sensitivity)
    low := min 1 (lowAvg / sensitivity)
    mid := min 1 (midAvg / sensitivity)
    high := min 1 (highAvg / sensitivity) }

/-- C8: with at least three frequency bins each band holds at least one bin,
and every emitted value is min 1 of the corresponding band average divided
by the sensitivity constant, hence lies in the unit interval. -/
theorem c8_vad_samples_normalized (data : List ℕ)
    (_h255 : ∀ x ∈ data, x ≤ 255) (h3 : 3 ≤ data.length) :
    (0 ≤ (detectVoiceActivity data).overall ∧ (detectVoiceActivity data).overall ≤ 1) ∧
    (0 ≤ (detectVoiceActivity data).low ∧ (detectVoiceActivity data).low ≤ 1) ∧
    (0 ≤ (detectVoiceActivity data).mid ∧ (detectVoiceActivity data).mid ≤ 1) ∧
    (0 ≤ (detectVoiceActivity data).high ∧ (detectVoiceActivity data).high ≤ 1) ∧
    0 < data.length / 3 ∧ data.length / 3 < 2 * data.length / 3 ∧
    2 * data.length / 3 < data.length ∧
    (detectVoiceActivity data).overall =
      min 1 ((data.sum : ℚ) / ((data.length : ℕ) : ℚ) / sensitivity) ∧
    (detectVoiceActivity data).low =
      min 1 (((data.take (data.length / 3)).sum : ℚ) /
        ((data.length / 3 : ℕ) : ℚ) / sensitivity) ∧
    (detectVoiceActivity data).mid =
      min 1 ((((data.take (2 * data.length / 3)).drop (data.length / 3)).sum : ℚ) /
        ((2 * data.length / 3 - data.length / 3 : ℕ) : ℚ) / sensitivity) ∧
    (detectVoiceActivity data).high =
      min 1 (((data.drop (2 * data.length / 3)).sum : ℚ) /
        ((data.length - 2 * data.length / 3 : ℕ) : ℚ) / sensitivity) := by
  have hval : ∀ (a b : ℕ), 0 ≤ min 1 (((a : ℕ) : ℚ) / ((b : ℕ) : ℚ) / sensitivity) ∧
      min 1 (((a : ℕ) : ℚ) / ((b : ℕ) : ℚ) / sensitivity) ≤ 1 := by
    intro a b
    constructor
    · refine le_min (by norm_num) ?_
      simp only [sensitivity]
      positivity
    · exact min_le_left 1 _
  refine ⟨⟨(hval data.sum data.length).1, (hval data.sum data.length).2⟩,
    ⟨(hval _ _).1, (hval _ _).2⟩,
    ⟨(hval _ _).1, (hval _ _).2⟩,
    ⟨(hval _ _).1, (hval _ _).2⟩,
    by omega, by omega, by omega, rfl, rfl, rfl, rfl⟩

/-- Witness for C8 at the concrete readout [10, 20, 30]. -/
theorem c8_vad_witness :
    (∀ x ∈ [10, 20, 30], x ≤ 255) ∧ 3 ≤ List.length [10, 20, 30] ∧
    (0 ≤ (detectVoiceActivity [10, 20, 30]).overall ∧
     (detectVoiceActivity [10, 20, 30]).overall ≤ 1) :=
  ⟨by decide, by decide,
   (c8_vad_samples_normalized [10, 20, 30] (by decide) (by decide)).1⟩

end VoiceHook
